import Mathlib

/-!
Verification development for a Canvas-to-Todoist synchronization application
(sync_app.py).  The sync engine is shallowly embedded: network interaction is
modeled by explicit response environments, Python dictionaries by structures
with optional fields (`none` models an absent or null JSON field), and Python
truthiness by explicit boolean tests.  Side effects that the claims talk
about (persisting the selection, issuing requests, sleeping) are recorded in
an explicit event trace.
-/

namespace SyncApp

/-- Truthiness of an optional string as Python evaluates it:
present and nonempty. -/
def truthyStr : Option String → Bool
  | none => false
  | some s => !s.isEmpty

/-- Truthiness of an optional integer as Python evaluates it:
present and nonzero. -/
def truthyInt : Option Int → Bool
  | none => false
  | some n => n != 0

/-- Credentials held by the application.  An empty string models a missing
value, matching the falsiness of an empty entry field in the code. -/
structure Creds where
  canvasUrl : String
  canvasKey : String
  todoistKey : String
deriving DecidableEq

/-- The credential precondition of the Canvas calls:
`if not canvas_base or not api_key`. -/
def Creds.canvasOk (c : Creds) : Bool :=
  !c.canvasUrl.isEmpty && !c.canvasKey.isEmpty

/-- The credential precondition of run_sync_process: all three values set. -/
def Creds.allOk (c : Creds) : Bool :=
  c.canvasOk && !c.todoistKey.isEmpty

/-- Base-URL normalization of the Canvas calls: append a slash unless one is
already present. -/
def normBase (b : String) : String :=
  if b.endsWith "/" then b else b ++ "/"

/-! ## Course Lister (get_canvas_courses) -/

/-- A raw course record returned by the source API.  `none` models an absent
(or null) JSON field. -/
structure Course where
  id : Option Int
  name : Option String
  course_code : Option String
deriving DecidableEq

/-- The validity filter of get_canvas_courses:
`c.get(id) and c.get(name)`, evaluated with Python truthiness. -/
def validCourse (c : Course) : Bool :=
  truthyInt c.id && truthyStr c.name

/-- The sort key of get_canvas_courses: the lowercased course code,
falling back to the lowercased name, then to the empty string. -/
def Course.sortKey (c : Course) : String :=
  (c.course_code.getD (c.name.getD "")).toLower

/-- The comparison by which get_canvas_courses sorts: ascending by sort key. -/
def courseLE (a b : Course) : Prop := a.sortKey ≤ b.sortKey

instance : DecidableRel courseLE :=
  fun a b => inferInstanceAs (Decidable (a.sortKey ≤ b.sortKey))

instance : IsTotal Course courseLE := ⟨fun a b => le_total a.sortKey b.sortKey⟩

instance : IsTrans Course courseLE := ⟨fun _ _ _ h h' => le_trans h h'⟩

/-- Result of get_canvas_courses: an optional course list and an optional
error message (the Python pair return value). -/
structure CoursesOut where
  courses : Option (List Course)
  error : Option String
deriving DecidableEq

/-- Model of get_canvas_courses.  The network is modeled by the response the
source API would give to the single course-list request: `Except.error` for a
request failure.  Missing credentials short-circuit before any request; on
success the raw list is filtered to valid courses and stably sorted by the
course sort key (Python list.sort is a stable ascending sort, modeled by
insertion sort). -/
def get_canvas_courses (c : Creds) (response : Except String (List Course)) :
    CoursesOut :=
  if !c.canvasOk then ⟨none, some "Canvas URL or API Key missing."⟩
  else
    match response with
    | .error e => ⟨none, some e⟩
    | .ok cs => ⟨some ((cs.filter validCourse).insertionSort courseLE), none⟩

/-! ## Externally visible effects -/

/-- Externally visible effects of the engine, recorded in the order they are
performed: a write of the selection file, a GET against the source API, a
POST against the destination API (carrying its idempotency header), and a
sleep (durations in time-units, rational to accommodate the half-unit
inter-item delay). -/
inductive Event
  | saveSelection (ids : List String)
  | canvasGet (url : String)
  | todoistPost (xRequestId : String)
  | sleep (duration : ℚ)
deriving DecidableEq

/-- Whether an event is a network call. -/
def Event.isNetwork : Event → Bool
  | canvasGet _ => true
  | todoistPost _ => true
  | _ => false

/-! ## Selection persistence (save_course_selection / load_course_selection) -/

/-- The character Python str renders the digit d as. -/
def pyDigitChar (d : Nat) : Char := Char.ofNat (48 + d)

/-- Model of Python str on a nonnegative integer: the decimal rendering,
most significant digit first, with 0 rendered as the one-character string. -/
def pyStr (n : Nat) : String :=
  if n = 0 then "0" else ⟨((Nat.digits 10 n).map pyDigitChar).reverse⟩

/-- Model of the str(id_str).isdigit() test applied on load: nonempty and
every character a decimal digit (the strings the application itself stores
are ASCII decimal, for which the Python test coincides with this one). -/
def pyIsDigit (s : String) : Bool :=
  !s.data.isEmpty && s.data.all Char.isDigit

/-- Model of Python int on a digit string: a left fold in base 10. -/
def pyParseNat (s : String) : Nat :=
  s.data.foldl (fun a c => 10 * a + (c.toNat - 48)) 0

/-- Model of save_course_selection: the selected_course_ids value written to
the config file — each selected identifier rendered as its decimal string.
The selection set is passed as an enumeration of its elements, since Python
iterates a set in an unspecified order. -/
def save_course_selection (ids : List Nat) : List String :=
  ids.map pyStr

/-- Model of load_course_selection: from the stored selected_course_ids
value, keep exactly the strings made of digits and convert them back to
integers, as a set. -/
def load_course_selection (stored : List String) : Finset Nat :=
  ((stored.filter pyIsDigit).map pyParseNat).toFinset

/-! ## Assignment Collector (get_canvas_assignments_for_courses) -/

/-- The submission sub-object of a raw assignment. -/
structure Submission where
  submitted_at : Option String
deriving DecidableEq

/-- A raw assignment record returned by the source API. -/
structure AssignRec where
  id : Option Int
  name : Option String
  html_url : Option String
  due_at : Option String
  submission : Option Submission
deriving DecidableEq

/-- The skip test of the collector, with Python truthiness: the submission
sub-object is present and its submitted_at is present and nonempty.  (An
absent submission and the empty submission object are both falsy, and both
carry no submitted_at, so the one test covers them.) -/
def submittedSkip (a : AssignRec) : Bool :=
  match a.submission with
  | none => false
  | some s => truthyStr s.submitted_at

/-- An assignment as accumulated by the collector: the raw record with the
resolved course label attached before accumulation. -/
structure Assignment where
  raw : AssignRec
  course_name : String
deriving DecidableEq

/-- The course-details record the collector uses to resolve a display
label. -/
structure CourseData where
  name : Option String
  course_code : Option String
deriving DecidableEq

/-- Label resolution of the collector: the course code, falling back to the
name, falling back to a generic label built from the identifier. -/
def resolvedLabel (courseId : Nat) (d : CourseData) : String :=
  d.course_code.getD (d.name.getD ("Course " ++ toString courseId))

/-- The source-API environment seen by the collector: the response each
course-details request and each assignment-list request would get. -/
structure CanvasEnv where
  courseData : Nat → Except String CourseData
  courseAssignments : Nat → Except String (List AssignRec)

/-- The URL of the course-details request of one course. -/
def courseInfoUrl (c : Creds) (id : Nat) : String :=
  normBase c.canvasUrl ++ "api/v1/courses/" ++ toString id

/-- The URL of the assignment-list request of one course. -/
def courseAssignmentsUrl (c : Creds) (id : Nat) : String :=
  normBase c.canvasUrl ++ "api/v1/courses/" ++ toString id ++
    "/assignments?bucket=upcoming&include[]=submission&per_page=100"

/-- The assignments one course contributes to the collector output: nothing
when either of its requests fails (the course is skipped and the loop
continues), otherwise its upcoming assignments minus the already-submitted
ones, each enriched with the resolved course label. -/
def perCourse (env : CanvasEnv) (id : Nat) : List Assignment :=
  match env.courseData id with
  | .error _ => []
  | .ok d =>
    match env.courseAssignments id with
    | .error _ => []
    | .ok as =>
      (as.filter (fun a => !submittedSkip a)).map
        (fun a => ⟨a, resolvedLabel id d⟩)

/-- The requests one course causes: the course-details request always; the
assignment-list request only when the details request succeeded. -/
def perCourseTrace (c : Creds) (env : CanvasEnv) (id : Nat) : List Event :=
  match env.courseData id with
  | .error _ => [.canvasGet (courseInfoUrl c id)]
  | .ok _ =>
      [.canvasGet (courseInfoUrl c id), .canvasGet (courseAssignmentsUrl c id)]

/-- Result of get_canvas_assignments_for_courses: the Python pair return
value, together with the requests performed. -/
structure CollectOut where
  assignments : Option (List Assignment)
  error : Option String
  trace : List Event
deriving DecidableEq

/-- The course loop of the collector, carried out with the running
accumulators the Python loop appends to. -/
def collectLoop (c : Creds) (env : CanvasEnv) (acc : List Assignment)
    (tr : List Event) : List Nat → List Assignment × List Event
  | [] => (acc, tr)
  | id :: rest =>
      collectLoop c env (acc ++ perCourse env id)
        (tr ++ perCourseTrace c env id) rest

/-- Model of get_canvas_assignments_for_courses.  Missing credentials
short-circuit with an error before any request; an empty selection
short-circuits with the empty list and no error before any request;
otherwise the course loop runs, isolating per-course failures, and the call
returns the accumulated assignments with no error. -/
def get_canvas_assignments_for_courses (c : Creds) (env : CanvasEnv)
    (courseIds : List Nat) : CollectOut :=
  if !c.canvasOk then ⟨none, some "Canvas URL or API Key missing.", []⟩
  else if courseIds.isEmpty then ⟨some [], none, []⟩
  else
    let p := collectLoop c env [] [] courseIds
    ⟨some p.1, none, p.2⟩

/-! ## Task Publisher (create_todoist_task) -/

/-- An HTTP response of the destination API, as far as the publisher
inspects it: the status code, the parsed integer value of the Retry-After
header when present, and the JSON body — `none` when the body fails to
decode, otherwise its Python truthiness. -/
structure HttpResponse where
  status : Nat
  retryAfter : Option Nat
  jsonBody : Option Bool
deriving DecidableEq

/-- The raise_for_status test of the requests library: an exception is
raised exactly for status codes in the interval from 400 to 599. -/
def statusOk (s : Nat) : Bool := !(400 ≤ s && s < 600)

/-- The value hashed for the idempotency header: the detail URL when
present, otherwise the identifier (which may itself be absent). -/
def hashSource (a : AssignRec) : Option (String ⊕ Int) :=
  match a.html_url with
  | some u => some (Sum.inl u)
  | none => a.id.map Sum.inr

/-- The X-Request-Id header value: the decimal rendering of the in-process
hash of the hash source.  The hash function is a parameter of the model; it
is a fixed function for the lifetime of one process. -/
def idempotencyToken (h : Option (String ⊕ Int) → Int) (a : AssignRec) :
    String :=
  toString (h (hashSource a))

/-- The responses the destination API would give to the first POST of one
publish call and to the retry POST, should one be made. -/
structure PostEnv where
  first : HttpResponse
  second : HttpResponse
deriving DecidableEq

/-- Result of create_todoist_task: the Python pair return value — the
decoded task body (by its truthiness) or an error — together with the
requests performed and the sleeps taken. -/
structure PublishOut where
  task : Option Bool
  error : Option String
  trace : List Event
deriving DecidableEq

/-- The terminal processing of a response in create_todoist_task:
raise_for_status, then return the decoded body paired with no error; a
status in the error range or an undecodable body yields the error result. -/
def finishResponse (r : HttpResponse) (tr : List Event) : PublishOut :=
  if statusOk r.status then
    match r.jsonBody with
    | some t => ⟨some t, none, tr⟩
    | none => ⟨none, some "Unexpected error creating Todoist task", tr⟩
  else
    ⟨none, some ("Todoist API Error (Status: " ++ toString r.status ++ ")"),
      tr⟩

/-- Model of create_todoist_task for one assignment.  A missing key
short-circuits with an error before any request.  A 429 first response
causes one sleep for the Retry-After duration (10 when the header is
absent) and exactly one retry of the same request, whose response —
whatever it is — is then processed terminally; any other first response is
processed terminally at once. -/
def create_todoist_task (h : Option (String ⊕ Int) → Int) (apiKey : String)
    (env : PostEnv) (a : Assignment) : PublishOut :=
  if apiKey.isEmpty then ⟨none, some "Todoist API Key missing.", []⟩
  else
    let tok := idempotencyToken h a.raw
    let r1 := env.first
    if r1.status == 429 then
      finishResponse env.second
        [.todoistPost tok, .sleep ((r1.retryAfter.getD 10 : Nat) : ℚ),
          .todoistPost tok]
    else
      finishResponse r1 [.todoistPost tok]

/-! ## Run Controller (run_sync_process and friends) -/

/-- The running counters and trace of the publish loop of
run_sync_process. -/
structure BatchState where
  synced : Nat
  errors : Nat
  calls : Nat
  trace : List Event
deriving DecidableEq

/-- One iteration of the publish loop: publish the item, count a failure
when an error came back (Python truthiness of the error string), otherwise
a success when the returned task value is truthy, and sleep half a
time-unit after the item regardless of its outcome. -/
def publishStep (h : Option (String ⊕ Int) → Int) (key : String)
    (envs : Nat → PostEnv) (st : BatchState) (a : Assignment) : BatchState :=
  let out := create_todoist_task h key (envs st.calls) a
  let st' : BatchState :=
    { st with
      calls := st.calls + 1
      trace := st.trace ++ out.trace ++ [.sleep ((1 : ℚ) / 2)] }
  if truthyStr out.error then { st' with errors := st'.errors + 1 }
  else if out.task.getD false then { st' with synced := st'.synced + 1 }
  else st'

/-- The publish loop of run_sync_process over the collected assignments, in
input order, indexing the per-item response environment by the loop
counter. -/
def publishBatch (h : Option (String ⊕ Int) → Int) (key : String)
    (envs : Nat → PostEnv) (assignments : List Assignment) : BatchState :=
  assignments.foldl (publishStep h key envs) ⟨0, 0, 0, []⟩

/-- The two in-flight flags of the application. -/
structure AppState where
  is_syncing : Bool
  is_fetching_courses : Bool
deriving DecidableEq

/-- The distinct terminal outcomes of run_sync_process, one per exit path
of the function. -/
inductive SyncOutcome
  | alreadyRunning
  | missingCreds
  | emptySelection
  | collectError (msg : String)
  | nothingToDo
  | finished (synced errors : Nat)
deriving DecidableEq

/-- The whole environment of one sync run: credentials, the selection read
from the GUI (as the list the set iteration yields), both remote APIs, and
the in-process hash function. -/
structure SyncEnv where
  creds : Creds
  selection : List Nat
  canvas : CanvasEnv
  todoist : Nat → PostEnv
  hashFn : Option (String ⊕ Int) → Int

/-- Result of run_sync_process: the application state at return, the
terminal outcome, and the effect trace. -/
structure SyncResult where
  state : AppState
  outcome : SyncOutcome
  trace : List Event
deriving DecidableEq

/-- Model of finish_sync: reset the sync in-flight flag. -/
def finish_sync (st : AppState) : AppState := { st with is_syncing := false }

/-- Model of run_sync_process.  In order: reject when already running;
abort on incomplete credentials; abort on an empty selection; persist the
selection; set the in-flight flag; collect assignments; on a collection
error or an empty collection exit early; otherwise run the publish loop
and report the final counts.  Every path past the flag-setting point goes
through finish_sync. -/
def run_sync_process (env : SyncEnv) (st : AppState) : SyncResult :=
  if st.is_syncing then ⟨st, .alreadyRunning, []⟩
  else if !env.creds.allOk then ⟨st, .missingCreds, []⟩
  else if env.selection.isEmpty then ⟨st, .emptySelection, []⟩
  else
    let tr0 : List Event := [.saveSelection (env.selection.map pyStr)]
    let st1 : AppState := { st with is_syncing := true }
    let col := get_canvas_assignments_for_courses env.creds env.canvas
      env.selection
    match col.error with
    | some e => ⟨finish_sync st1, .collectError e, tr0 ++ col.trace⟩
    | none =>
      let assignments := col.assignments.getD []
      if assignments.isEmpty then
        ⟨finish_sync st1, .nothingToDo, tr0 ++ col.trace⟩
      else
        let b := publishBatch env.hashFn env.creds.todoistKey env.todoist
          assignments
        ⟨finish_sync st1, .finished b.synced b.errors,
          tr0 ++ col.trace ++ b.trace⟩

/-- The distinct terminal outcomes of fetch_and_display_courses. -/
inductive FetchOutcome
  | alreadyRunning
  | missingCreds
  | fetchError (msg : String)
  | displayed (courses : List Course)
deriving DecidableEq

/-- Model of finish_fetch_courses: reset the fetch in-flight flag. -/
def finish_fetch_courses (st : AppState) : AppState :=
  { st with is_fetching_courses := false }

/-- Model of fetch_and_display_courses: reject when already running; abort
on incomplete Canvas credentials before setting the flag; otherwise set
the flag, fetch the course list, and — error or not — return through
finish_fetch_courses. -/
def fetch_and_display_courses (c : Creds)
    (response : Except String (List Course)) (st : AppState) :
    AppState × FetchOutcome :=
  if st.is_fetching_courses then (st, .alreadyRunning)
  else if !c.canvasOk then (st, .missingCreds)
  else
    let st1 : AppState := { st with is_fetching_courses := true }
    let out := get_canvas_courses c response
    match out.error with
    | some e => (finish_fetch_courses st1, .fetchError e)
    | none => (finish_fetch_courses st1, .displayed (out.courses.getD []))

/-- The terminal dialog of run_sync_process: a warning carrying both counts
when any item failed, otherwise a success info dialog carrying the created
count. -/
inductive FinalReport
  | successInfo (synced : Nat)
  | errorsWarning (synced errors : Nat)
deriving DecidableEq

/-- The report run_sync_process emits for the final counters. -/
def reportOf (synced errors : Nat) : FinalReport :=
  if errors > 0 then .errorsWarning synced errors else .successInfo synced

/-- The tri-state outcome of a completed run, in terms of the two counters
(the attempted count being their sum). -/
inductive TriState
  | full
  | mixed
  | failed
deriving DecidableEq

/-- Classification of a completed run: full success when nothing failed,
mixed when both counters are positive, total failure otherwise. -/
def classify (synced errors : Nat) : TriState :=
  if errors = 0 then .full else if synced > 0 then .mixed else .failed

/-! ## Concrete inputs used to exercise the theorems -/

/-- A complete credential set. -/
def credsW : Creds := ⟨"https://canvas.example", "ckey", "tkey"⟩

/-- A raw course list with an invalid entry, a code-less entry and a
case-insensitive tie. -/
def rawCoursesW : List Course :=
  [⟨some 1, some "Zeta", some "B2"⟩,
   ⟨none, some "NoId", some "A0"⟩,
   ⟨some 2, some "alpha", none⟩,
   ⟨some 3, some "Beta", some "b2"⟩]

/-- An upcoming assignment with no submitted_at. -/
def aliveW : AssignRec :=
  ⟨some 10, some "Essay", some "https://canvas.example/a/10",
    some "2026-11-01T23:59:00Z", some ⟨none⟩⟩

/-- An already-submitted assignment. -/
def doneW : AssignRec :=
  ⟨some 11, some "Quiz", some "https://canvas.example/a/11", none,
    some ⟨some "2026-10-01T12:00:00Z"⟩⟩

/-- A source-API environment where course 3 fails and every other course
resolves to the label MATH101 and two assignments, one of them already
submitted. -/
def canvasEnvW : CanvasEnv where
  courseData := fun id =>
    if id = 3 then .error "Canvas API Error for course 3: 500 - boom"
    else .ok ⟨some "Algebra", some "MATH101"⟩
  courseAssignments := fun id =>
    if id = 3 then .error "Canvas API Error for course 3: 500 - boom"
    else .ok [aliveW, doneW]

/-- An assignment whose submission carries a submitted_at that is non-null
yet empty — falsy for Python. -/
def emptyTsW : AssignRec :=
  ⟨some 12, some "HW 1", some "https://canvas.example/a/12", none,
    some ⟨some ""⟩⟩

/-- A source-API environment whose every course returns exactly the
assignment with the empty submitted_at. -/
def canvasEnvEmptyTs : CanvasEnv where
  courseData := fun _ => .ok ⟨some "Algebra", some "MATH101"⟩
  courseAssignments := fun _ => .ok [emptyTsW]

/-- A plain success response. -/
def okRespW : HttpResponse := ⟨200, none, some true⟩

/-- A rate-limited first attempt with Retry-After 2, then success. -/
def postEnv429W : PostEnv := ⟨⟨429, some 2, some true⟩, okRespW⟩

/-- The enrichment of the live assignment, as the collector emits it. -/
def assignmentW : Assignment := ⟨aliveW, "MATH101"⟩

/-- A full sync environment: selection course 5, which yields one
publishable assignment, published successfully. -/
def syncEnvW : SyncEnv where
  creds := credsW
  selection := [5]
  canvas := canvasEnvW
  todoist := fun _ => ⟨okRespW, okRespW⟩
  hashFn := fun _ => 0

/-! ## Theorems -/

/-- C4: for every raw course list returned by the source API, the Course
Lister output excludes every course with a null identifier or null name,
and the remaining courses are sorted ascending, stably and
case-insensitively, by the lowercased course code with the lowercased name
as the key when the code is absent.  Sortedness is by `courseLE` (the
lowercased code-or-name key), stability is the preservation of every
equal-key pair of the filtered input, and the output is a permutation of
the filtered input. -/
theorem courses_filtered_sorted_stable (c : Creds) (raw : List Course)
    (hc : c.canvasOk = true) :
    ∃ out, get_canvas_courses c (.ok raw) = ⟨some out, none⟩ ∧
      (∀ x ∈ out, x.id ≠ none ∧ x.name ≠ none) ∧
      out.Sorted courseLE ∧
      out.Perm (raw.filter validCourse) ∧
      ∀ a b, a.sortKey = b.sortKey → List.Sublist [a, b] (raw.filter validCourse) →
        List.Sublist [a, b] out := by
  refine ⟨(raw.filter validCourse).insertionSort courseLE, ?_, ?_, ?_, ?_, ?_⟩
  · simp [get_canvas_courses, hc]
  · intro x hx
    have hmem : x ∈ raw.filter validCourse :=
      (List.perm_insertionSort courseLE (raw.filter validCourse)).subset hx
    have hv : validCourse x = true := (List.mem_filter.mp hmem).2
    rw [validCourse, Bool.and_eq_true] at hv
    constructor
    · intro hid
      rw [hid] at hv
      simpa [truthyInt] using hv.1
    · intro hname
      rw [hname] at hv
      simpa [truthyStr] using hv.2
  · exact List.sorted_insertionSort courseLE _
  · exact List.perm_insertionSort courseLE _
  · intro a b hk hsub
    exact List.pair_sublist_insertionSort (le_of_eq hk) hsub

/-- Witness for C4: on a concrete credential set and raw course list, the
returned list is sorted with no error reported. -/
theorem courses_filtered_sorted_stable_witness :
    ((get_canvas_courses credsW (.ok rawCoursesW)).courses.getD []).Sorted
        courseLE ∧
    (get_canvas_courses credsW (.ok rawCoursesW)).error = none := by
  obtain ⟨out, h1, _, h3, _, _⟩ :=
    courses_filtered_sorted_stable credsW rawCoursesW (by decide)
  rw [h1]
  exact ⟨h3, rfl⟩

/-- The collector loop appends to its accumulators the concatenation of the
per-course contributions, in course order. -/
theorem collectLoop_eq (c : Creds) (env : CanvasEnv) :
    ∀ (ids : List Nat) (acc : List Assignment) (tr : List Event),
      collectLoop c env acc tr ids =
        (acc ++ ids.flatMap (perCourse env),
          tr ++ ids.flatMap (perCourseTrace c env)) := by
  intro ids
  induction ids with
  | nil => intro acc tr; simp [collectLoop]
  | cons id rest ih =>
      intro acc tr
      rw [collectLoop, ih]
      simp

/-- The collector, under the credential precondition, returns no error and
exactly the concatenation of the per-course surviving assignments, in
course-then-assignment order. -/
theorem collect_ok_eq (c : Creds) (env : CanvasEnv) (ids : List Nat)
    (hc : c.canvasOk = true) :
    get_canvas_assignments_for_courses c env ids =
      ⟨some (ids.flatMap (perCourse env)), none,
        ids.flatMap (perCourseTrace c env)⟩ := by
  cases ids with
  | nil => simp [get_canvas_assignments_for_courses, hc]
  | cons id rest =>
      rw [get_canvas_assignments_for_courses]
      rw [hc]
      simpa using congrArg
        (fun p => CollectOut.mk (some p.1) none p.2)
        (collectLoop_eq c env (id :: rest) [] [])

/-- C8: for an empty course-identifier set, the collector returns the pair
of the empty list and no error, with an empty request trace (no network
call), given the credential precondition. -/
theorem collect_empty_selection (c : Creds) (env : CanvasEnv)
    (hc : c.canvasOk = true) :
    get_canvas_assignments_for_courses c env [] = ⟨some [], none, []⟩ := by
  simp [get_canvas_assignments_for_courses, hc]

/-- Witness for C8: the empty selection on a concrete environment. -/
theorem collect_empty_selection_witness :
    get_canvas_assignments_for_courses credsW canvasEnvW [] =
      ⟨some [], none, []⟩ :=
  collect_empty_selection credsW canvasEnvW (by decide)

/-- C3: with credentials present, a non-empty selection in which some
course fails (label fetch or assignment fetch) yields no top-level error;
the failing course contributes nothing, and the output is still the
concatenation of the surviving assignments of every requested course in
course-then-assignment order. -/
theorem collect_failure_isolation (c : Creds) (env : CanvasEnv)
    (ids : List Nat) (hc : c.canvasOk = true) (hne : ids ≠ [])
    (cid : Nat) (hmem : cid ∈ ids)
    (hfail : (∃ e, env.courseData cid = .error e) ∨
      (∃ e, env.courseAssignments cid = .error e)) :
    (get_canvas_assignments_for_courses c env ids).error = none ∧
    (get_canvas_assignments_for_courses c env ids).assignments =
      some (ids.flatMap (perCourse env)) ∧
    perCourse env cid = [] := by
  rw [collect_ok_eq c env ids hc]
  refine ⟨rfl, rfl, ?_⟩
  rcases hfail with ⟨e, he⟩ | ⟨e, he⟩
  · simp [perCourse, he]
  · cases hd : env.courseData cid with
    | error _ => simp [perCourse, hd]
    | ok d => simp [perCourse, hd, he]

/-- Witness for C3: course 3 fails while course 5 succeeds in the concrete
environment; the call still returns all surviving assignments with no
error. -/
theorem collect_failure_isolation_witness :
    (get_canvas_assignments_for_courses credsW canvasEnvW [3, 5]).error =
      none ∧
    (get_canvas_assignments_for_courses credsW canvasEnvW [3, 5]).assignments
      = some ([3, 5].flatMap (perCourse canvasEnvW)) ∧
    perCourse canvasEnvW 3 = [] :=
  collect_failure_isolation credsW canvasEnvW [3, 5] (by decide)
    (by decide) 3 (by decide)
    (Or.inl ⟨"Canvas API Error for course 3: 500 - boom", rfl⟩)

/-- One publish-loop iteration increments the call counter by exactly one,
whatever the item or its outcome. -/
theorem publishStep_calls (h : Option (String ⊕ Int) → Int) (key : String)
    (envs : Nat → PostEnv) (st : BatchState) (a : Assignment) :
    (publishStep h key envs st a).calls = st.calls + 1 := by
  rw [publishStep]
  dsimp only
  split
  · rfl
  · split
    · rfl
    · rfl

/-- The publish loop attempts each handed-in assignment exactly once: its
call counter, over any start state, grows by the input length. -/
theorem publishBatch_calls_aux (h : Option (String ⊕ Int) → Int)
    (key : String) (envs : Nat → PostEnv) :
    ∀ (l : List Assignment) (st : BatchState),
      (l.foldl (publishStep h key envs) st).calls = st.calls + l.length := by
  intro l
  induction l with
  | nil => intro st; simp
  | cons a t ih =>
      intro st
      rw [List.foldl_cons, ih, publishStep_calls, List.length_cons]
      omega

/-- C1 (amended): with credentials present, the collector output never
contains an assignment whose submission carries a truthy — that is,
non-null and nonempty — submitted_at, and every surviving assignment in
the output carries the resolved label of a requested course whose two
fetches succeeded and whose assignment list contains the raw record.
Moreover this filter is applied exactly once, at collection time, and is
never re-checked later: the publish loop attempts every assignment handed
to it exactly once, submitted or not, and the single-item publisher is
invariant in the submission field, so submission status is consulted
nowhere past collection. -/
theorem collect_excludes_submitted (c : Creds) (env : CanvasEnv)
    (ids : List Nat) (hc : c.canvasOk = true) :
    (∀ x ∈ (get_canvas_assignments_for_courses c env ids).assignments.getD [],
      submittedSkip x.raw = false ∧
      ∃ cid ∈ ids, ∃ d, env.courseData cid = .ok d ∧
        x.course_name = resolvedLabel cid d ∧
        ∃ as, env.courseAssignments cid = .ok as ∧ x.raw ∈ as) ∧
    (∀ (h : Option (String ⊕ Int) → Int) (key : String)
      (envs : Nat → PostEnv) (l : List Assignment),
      (publishBatch h key envs l).calls = l.length) ∧
    ∀ (h : Option (String ⊕ Int) → Int) (key : String) (penv : PostEnv)
      (x : Assignment) (s : Option Submission),
      create_todoist_task h key penv
          ⟨⟨x.raw.id, x.raw.name, x.raw.html_url, x.raw.due_at, s⟩,
            x.course_name⟩ =
        create_todoist_task h key penv x := by
  refine ⟨?_, ?_, ?_⟩
  case refine_2 =>
    intro h key envs l
    rw [publishBatch, publishBatch_calls_aux]
    simp
  case refine_3 =>
    intro h key penv x s
    have htok : idempotencyToken h
        ⟨x.raw.id, x.raw.name, x.raw.html_url, x.raw.due_at, s⟩ =
        idempotencyToken h x.raw := by
      have hsrc : hashSource
          ⟨x.raw.id, x.raw.name, x.raw.html_url, x.raw.due_at, s⟩ =
          hashSource x.raw := by
        rcases x with ⟨⟨i, n, u, d, sub⟩, cn⟩
        cases u <;> rfl
      rw [idempotencyToken, idempotencyToken, hsrc]
    simp only [create_todoist_task, htok]
  rw [collect_ok_eq c env ids hc]
  intro x hx
  simp only [Option.getD_some] at hx
  obtain ⟨cid, hcid, hpc⟩ := List.mem_flatMap.mp hx
  unfold perCourse at hpc
  cases hd : env.courseData cid with
  | error _ => rw [hd] at hpc; cases hpc
  | ok d =>
      rw [hd] at hpc
      cases ha : env.courseAssignments cid with
      | error _ => rw [ha] at hpc; cases hpc
      | ok as =>
          rw [ha] at hpc
          obtain ⟨a, hafil, hax⟩ := List.mem_map.mp hpc
          obtain ⟨hamem, hakeep⟩ := List.mem_filter.mp hafil
          refine ⟨?_, cid, hcid, d, hd, ?_, as, ha, ?_⟩
          · rw [← hax]
            simpa using hakeep
          · rw [← hax]
          · rw [← hax]
            exact hamem

/-- Witness for C1 (amended): in the concrete environment the surviving
assignment is unsubmitted and carries the resolved course label, and the
publish loop attempts both of two handed-in assignments — one of them
already submitted — exactly once each. -/
theorem collect_excludes_submitted_witness :
    submittedSkip assignmentW.raw = false ∧
    assignmentW.course_name =
      resolvedLabel 5 ⟨some "Algebra", some "MATH101"⟩ ∧
    (publishBatch (fun _ => 0) "tkey" (fun _ => postEnv429W)
      [assignmentW, ⟨doneW, "MATH101"⟩]).calls = 2 := by
  have h := collect_excludes_submitted credsW canvasEnvW [5] (by decide)
  exact ⟨(h.1 assignmentW (by decide)).1, rfl,
    h.2.1 (fun _ => 0) "tkey" (fun _ => postEnv429W)
      [assignmentW, ⟨doneW, "MATH101"⟩]⟩

/-- C1, as stated, is false on the code: an assignment whose submission
carries the non-null submitted_at given by the empty string is falsy for
the Python truthiness test the code uses, so the collector keeps it — the
output contains an assignment with a non-null submitted_at. -/
theorem collect_submitted_nonnull_counterexample :
    emptyTsW.submission = some ⟨some ""⟩ ∧
    (get_canvas_assignments_for_courses credsW canvasEnvEmptyTs
        [7]).assignments = some [⟨emptyTsW, "MATH101"⟩] :=
  ⟨rfl, rfl⟩

/-- Terminal response processing never changes the request trace. -/
theorem finishResponse_trace (r : HttpResponse) (tr : List Event) :
    (finishResponse r tr).trace = tr := by
  cases hs : statusOk r.status <;> cases hb : r.jsonBody <;>
    simp [finishResponse, hs, hb]

/-- Every POST a publish call makes carries the idempotency token of the
assignment being published. -/
theorem create_trace_posts (h : Option (String ⊕ Int) → Int) (key : String)
    (env : PostEnv) (x : Assignment) :
    ∀ s, Event.todoistPost s ∈ (create_todoist_task h key env x).trace →
      s = idempotencyToken h x.raw := by
  intro s hs
  by_cases hk : key.isEmpty = true
  · simp [create_todoist_task, hk] at hs
  · rw [create_todoist_task, if_neg hk] at hs
    by_cases h4 : (env.first.status == 429) = true
    · rw [if_pos h4, finishResponse_trace] at hs
      simpa using hs
    · rw [if_neg h4, finishResponse_trace] at hs
      simpa using hs

/-- C2: with the key present, a 429 first response makes the publish call
perform exactly two POSTs of the same request with exactly one sleep in
between, for the Retry-After duration (10 when the header is absent); the
call then succeeds exactly when the retry response is a success, and any
failing retry response makes the whole call one failed publish with no
further requests.  The trace equality pins down the requests and sleeps
exhaustively. -/
theorem rate_limit_single_retry (h : Option (String ⊕ Int) → Int)
    (key : String) (env : PostEnv) (a : Assignment)
    (hk : key.isEmpty = false) (h429 : env.first.status = 429) :
    (create_todoist_task h key env a).trace =
      [.todoistPost (idempotencyToken h a.raw),
        .sleep ((env.first.retryAfter.getD 10 : Nat) : ℚ),
        .todoistPost (idempotencyToken h a.raw)] ∧
    ((statusOk env.second.status && env.second.jsonBody.isSome) = true →
      (create_todoist_task h key env a).task.isSome = true ∧
      (create_todoist_task h key env a).error = none) ∧
    ((statusOk env.second.status && env.second.jsonBody.isSome) = false →
      (create_todoist_task h key env a).task = none ∧
      (create_todoist_task h key env a).error.isSome = true) := by
  have hred : create_todoist_task h key env a =
      finishResponse env.second
        [.todoistPost (idempotencyToken h a.raw),
          .sleep ((env.first.retryAfter.getD 10 : Nat) : ℚ),
          .todoistPost (idempotencyToken h a.raw)] := by
    rw [create_todoist_task, if_neg (by simp [hk])]
    rw [if_pos (by simp [h429])]
  rw [hred]
  cases hs : statusOk env.second.status with
  | false => simp [finishResponse, hs]
  | true =>
      cases hb : env.second.jsonBody with
      | none => simp [finishResponse, hs, hb]
      | some t => simp [finishResponse, hs, hb]

/-- Witness for C2: a concrete 429-with-Retry-After-2 first response
followed by a success sleeps exactly 2 between exactly two POSTs and ends
as one successful publish. -/
theorem rate_limit_single_retry_witness :
    (create_todoist_task (fun _ => 0) "tkey" postEnv429W assignmentW).trace =
      [.todoistPost (idempotencyToken (fun _ => 0) assignmentW.raw),
        .sleep ((2 : Nat) : ℚ),
        .todoistPost (idempotencyToken (fun _ => 0) assignmentW.raw)] ∧
    (create_todoist_task (fun _ => 0) "tkey" postEnv429W
      assignmentW).task.isSome = true ∧
    (create_todoist_task (fun _ => 0) "tkey" postEnv429W
      assignmentW).error = none := by
  obtain ⟨h1, h2, _⟩ := rate_limit_single_retry (fun _ => 0) "tkey"
    postEnv429W assignmentW (by decide) rfl
  exact ⟨h1, h2 (by decide)⟩

/-- C9: the idempotency header is a pure function of the hash source of
the assignment record (detail URL, or identifier when the URL is absent):
equal hash sources always yield equal header values across repeated calls,
and within one publish call every request made — first POST and retry POST
alike — carries exactly that header value. -/
theorem idempotency_token_stable (h : Option (String ⊕ Int) → Int)
    (a b : AssignRec) (key : String) (env : PostEnv) (x : Assignment)
    (hab : hashSource a = hashSource b) :
    idempotencyToken h a = idempotencyToken h b ∧
    ∀ e ∈ (create_todoist_task h key env x).trace, ∀ s,
      e = .todoistPost s → s = idempotencyToken h x.raw := by
  constructor
  · rw [idempotencyToken, idempotencyToken, hab]
  · intro e he s hes
    rw [hes] at he
    exact create_trace_posts h key env x s he

/-- Witness for C9: two distinct records sharing a detail URL get the same
header value. -/
theorem idempotency_token_stable_witness :
    idempotencyToken (fun _ => 0) aliveW =
      idempotencyToken (fun _ => 0)
        ⟨some 99, none, aliveW.html_url, none, none⟩ :=
  (idempotency_token_stable (fun _ => 0) aliveW
    ⟨some 99, none, aliveW.html_url, none, none⟩ "tkey" postEnv429W
    assignmentW rfl).1

/-- C5: for each operation kind, a second invocation while the in-flight
flag is set is rejected as a no-op with the state unchanged, and whenever
an invocation starts from the idle state, every exit path — early abort,
collection error, empty result, or completed run — returns with the flag
back in the idle state. -/
theorem inflight_guard_and_reset (env : SyncEnv) (st : AppState)
    (c : Creds) (resp : Except String (List Course)) :
    (st.is_syncing = true →
      run_sync_process env st = ⟨st, .alreadyRunning, []⟩) ∧
    (st.is_syncing = false →
      (run_sync_process env st).state.is_syncing = false) ∧
    (st.is_fetching_courses = true →
      fetch_and_display_courses c resp st = (st, .alreadyRunning)) ∧
    (st.is_fetching_courses = false →
      (fetch_and_display_courses c resp st).1.is_fetching_courses = false) := by
  refine ⟨?_, ?_, ?_, ?_⟩
  · intro h
    rw [run_sync_process, if_pos h]
  · intro h
    rw [run_sync_process, if_neg (by simp [h])]
    dsimp only
    split
    · exact h
    · split
      · exact h
      · split
        · rfl
        · split
          · rfl
          · rfl
  · intro h
    rw [fetch_and_display_courses, if_pos h]
  · intro h
    rw [fetch_and_display_courses, if_neg (by simp [h])]
    dsimp only
    split
    · exact h
    · split
      · rfl
      · rfl

/-- Witness for C5: in a concrete environment, a call while running is the
identity no-op, and a call from idle returns with the flag reset, for both
operation kinds. -/
theorem inflight_guard_and_reset_witness :
    run_sync_process syncEnvW ⟨true, false⟩ =
      ⟨⟨true, false⟩, .alreadyRunning, []⟩ ∧
    (run_sync_process syncEnvW ⟨false, false⟩).state.is_syncing = false ∧
    fetch_and_display_courses credsW (.ok rawCoursesW) ⟨false, true⟩ =
      (⟨false, true⟩, .alreadyRunning) ∧
    (fetch_and_display_courses credsW (.ok rawCoursesW)
      ⟨false, false⟩).1.is_fetching_courses = false :=
  ⟨(inflight_guard_and_reset syncEnvW ⟨true, false⟩ credsW
      (.ok rawCoursesW)).1 rfl,
    (inflight_guard_and_reset syncEnvW ⟨false, false⟩ credsW
      (.ok rawCoursesW)).2.1 rfl,
    (inflight_guard_and_reset syncEnvW ⟨false, true⟩ credsW
      (.ok rawCoursesW)).2.2.1 rfl,
    (inflight_guard_and_reset syncEnvW ⟨false, false⟩ credsW
      (.ok rawCoursesW)).2.2.2 rfl⟩

/-- C6: a completed sync run that attempted at least one publish (each
attempt counted exactly once as a success or a failure) has its tri-state
outcome — full success exactly when the failure count is 0, partial success
exactly when both counts are positive, total failure exactly when the
success count is 0 — and the terminal report the run emits determines that
tri-state. -/
theorem final_report_tristate (env : SyncEnv) (st : AppState) (s e : Nat)
    (hrun : (run_sync_process env st).outcome = .finished s e)
    (hatt : 0 < s + e) :
    (classify s e = .full ↔ e = 0) ∧
    (classify s e = .mixed ↔ 0 < s ∧ 0 < e) ∧
    (classify s e = .failed ↔ s = 0 ∧ 0 < e) ∧
    ∀ s' e', 0 < s' + e' → reportOf s e = reportOf s' e' →
      classify s e = classify s' e' := by
  refine ⟨?_, ?_, ?_, ?_⟩
  · by_cases he : e = 0 <;> by_cases hs : 0 < s <;>
      simp [classify, he, hs] <;> omega
  · by_cases he : e = 0 <;> by_cases hs : 0 < s <;>
      simp [classify, he, hs] <;> omega
  · by_cases he : e = 0 <;> by_cases hs : 0 < s <;>
      simp [classify, he, hs] <;> omega
  · intro s' e' h' hrep
    rw [reportOf, reportOf] at hrep
    by_cases he : 0 < e <;> by_cases he' : 0 < e' <;>
      simp [he, he'] at hrep
    · obtain ⟨rfl, rfl⟩ := hrep
      rfl
    · have h0 : e = 0 := by omega
      have h0' : e' = 0 := by omega
      simp [classify, h0, h0']

/-- Witness for C6: the concrete sync environment completes with one
success and no failure. -/
theorem final_report_tristate_witness :
    (classify 1 0 = .full ↔ (0 : Nat) = 0) ∧
    (classify 1 0 = .mixed ↔ 0 < 1 ∧ 0 < (0 : Nat)) ∧
    (classify 1 0 = .failed ↔ 1 = 0 ∧ 0 < (0 : Nat)) := by
  obtain ⟨h1, h2, h3, _⟩ :=
    final_report_tristate syncEnvW ⟨false, false⟩ 1 0 (by decide) (by decide)
  exact ⟨h1, h2, h3⟩

/-- C7: whenever a sync run passes its guards — idle, complete credentials,
non-empty selection — the very first recorded effect is the write of the
current selection to the selection file, so the persisted selection
precedes every network call of the run. -/
theorem selection_saved_before_network (env : SyncEnv) (st : AppState)
    (h1 : st.is_syncing = false) (h2 : env.creds.allOk = true)
    (h3 : env.selection ≠ []) :
    (∃ t, (run_sync_process env st).trace =
      .saveSelection (env.selection.map pyStr) :: t) ∧
    ∀ i e, (run_sync_process env st).trace.get? i = some e →
      e.isNetwork = true → 0 < i := by
  have hsel : env.selection.isEmpty = false := by
    cases hx : env.selection with
    | nil => exact absurd hx h3
    | cons a l => rfl
  have hmain : ∃ t, (run_sync_process env st).trace =
      .saveSelection (env.selection.map pyStr) :: t := by
    rw [run_sync_process, if_neg (by simp [h1]), if_neg (by simp [h2]),
      if_neg (by simp [hsel])]
    dsimp only
    split
    · exact ⟨_, rfl⟩
    · split
      · exact ⟨_, rfl⟩
      · exact ⟨_, rfl⟩
  refine ⟨hmain, ?_⟩
  obtain ⟨t, ht⟩ := hmain
  intro i e hi hnet
  rw [ht] at hi
  cases i with
  | zero =>
      rw [List.get?_cons_zero] at hi
      obtain rfl : Event.saveSelection (env.selection.map pyStr) = e :=
        Option.some.inj hi
      simp [Event.isNetwork] at hnet
  | succ n => exact Nat.succ_pos n

/-- Witness for C7: the concrete sync environment records the selection
write as its first effect. -/
theorem selection_saved_before_network_witness :
    (run_sync_process syncEnvW ⟨false, false⟩).trace.head? =
      some (.saveSelection (syncEnvW.selection.map pyStr)) := by
  obtain ⟨⟨t, ht⟩, _⟩ := selection_saved_before_network syncEnvW
    ⟨false, false⟩ rfl (by decide) (by decide)
  rw [ht]
  rfl

/-- Rendering a digit below 10 yields a digit character. -/
theorem pyDigitChar_isDigit (d : Nat) (hd : d < 10) :
    (pyDigitChar d).isDigit = true := by
  interval_cases d <;> decide

/-- The code point of a rendered digit below 10. -/
theorem pyDigitChar_toNat (d : Nat) (hd : d < 10) :
    (pyDigitChar d).toNat = 48 + d := by
  interval_cases d <;> decide

/-- The parse fold evaluated over a rendered digit list, most significant
digit first. -/
theorem foldl_pyDigits (l : List Nat) (hl : ∀ d ∈ l, d < 10) (a : Nat) :
    ((l.map pyDigitChar).reverse).foldl
        (fun x c => 10 * x + (c.toNat - 48)) a
      = a * 10 ^ l.length + Nat.ofDigits 10 l := by
  induction l generalizing a with
  | nil => simp
  | cons d t ih =>
      rw [List.map_cons, List.reverse_cons, List.foldl_append]
      rw [ih (fun x hx => hl x (List.mem_cons_of_mem d hx))]
      have hd : d < 10 := hl d (List.mem_cons_self d t)
      simp only [List.foldl_cons, List.foldl_nil, pyDigitChar_toNat d hd,
        Nat.add_sub_cancel_left, Nat.ofDigits_cons, List.length_cons,
        pow_succ]
      ring

/-- Python str of a nonnegative integer passes the digit test. -/
theorem pyIsDigit_pyStr (n : Nat) : pyIsDigit (pyStr n) = true := by
  by_cases hn : n = 0
  · subst hn; decide
  · rw [pyStr, if_neg hn, pyIsDigit]
    rw [Bool.and_eq_true]
    constructor
    · have : Nat.digits 10 n ≠ [] := Nat.digits_ne_nil_iff_ne_zero.mpr hn
      cases hx : Nat.digits 10 n with
      | nil => exact absurd hx this
      | cons d t => simp [hx]
    · rw [List.all_eq_true]
      intro c hc
      rw [List.mem_reverse, List.mem_map] at hc
      obtain ⟨d, hd, rfl⟩ := hc
      exact pyDigitChar_isDigit d (Nat.digits_lt_base (by norm_num) hd)

/-- Python int inverts Python str on nonnegative integers. -/
theorem pyParse_pyStr (n : Nat) : pyParseNat (pyStr n) = n := by
  by_cases hn : n = 0
  · subst hn; decide
  · rw [pyStr, if_neg hn, pyParseNat]
    have := foldl_pyDigits (Nat.digits 10 n)
      (fun d hd => Nat.digits_lt_base (by norm_num) hd) 0
    simpa [Nat.ofDigits_digits] using this

/-- C10: for every finite set of nonnegative integer course identifiers
(given through any enumeration of its elements, since Python iterates a set
in unspecified order), saving the selection and loading it back returns
exactly the same set: every saved decimal string passes the digit filter
and parses back to the identifier it came from. -/
theorem save_load_roundtrip (s : Finset Nat) (l : List Nat)
    (hl : l.toFinset = s) :
    load_course_selection (save_course_selection l) = s := by
  rw [load_course_selection, save_course_selection]
  rw [List.filter_eq_self.mpr ?hall]
  case hall =>
    intro a ha
    obtain ⟨n, hn, rfl⟩ := List.mem_map.mp ha
    exact pyIsDigit_pyStr n
  rw [List.map_map]
  have hparse : l.map (pyParseNat ∘ pyStr) = l := by
    have : l.map (pyParseNat ∘ pyStr) = l.map id :=
      List.map_congr_left (fun n _ => pyParse_pyStr n)
    rw [this, List.map_id]
  rw [hparse, hl]

/-- Witness for C10: a concrete selection set, enumerated out of order,
survives the save-then-load round trip. -/
theorem save_load_roundtrip_witness :
    load_course_selection (save_course_selection [31, 7]) =
      ({7, 31} : Finset Nat) :=
  save_load_roundtrip ({7, 31} : Finset Nat) [31, 7] (by decide)

end SyncApp
